import Mathlib

/-!
Verification development for the autolens_workspace repository.

The repository is a collection of Python scripts that wire phases, priors and
file paths for an external gravitational-lensing modelling library.  This file
shallowly embeds the parts of the repository that carry checkable logic:

* the weighted mean / weighted standard deviation helper and the aggregation
  loop of `src/aggregator/scripts/tutorial_2_lens_models.py` (numeric values
  are modelled as rationals; the final `np.sqrt` of the source is modelled at
  the variance level, since the square root is a monotone bijection on the
  non-negative reals and the interesting content is the variance);
* the phase-construction and prior-passing structure of the six pipeline
  files under `src/pipelines/` (transcribed as explicit dependency data);
* the `phase_folders` bookkeeping of the `make_pipeline` functions;
* the straight-line external-call structure of the runner and aggregator
  scripts, embedded in the `Except` monad to reason about error propagation.
-/

namespace AutolensWorkspace

/-- Errors that the embedded numpy fragment can raise.  `np.average` raises
`ZeroDivisionError` when the weights sum to zero. -/
inductive NumErr where
  | zeroDivision
  deriving DecidableEq, Repr

/-- Embedding of `np.average(values, weights=weights)` from
`src/aggregator/scripts/tutorial_2_lens_models.py`: the weighted sum of the
values divided by the sum of the weights, raising `ZeroDivisionError` when the
weights sum to zero (numpy's behaviour). -/
def np_average (values weights : List ℚ) : Except NumErr ℚ :=
  if weights.sum = 0 then Except.error NumErr.zeroDivision
  else Except.ok ((List.zipWith (fun v w => v * w) values weights).sum / weights.sum)

/-- Embedding of `weighted_mean_and_standard_deviation` from
`src/aggregator/scripts/tutorial_2_lens_models.py` (lines 113-123):

    average = np.average(values, weights=weights)
    variance = np.average((values - average) ** 2, weights=weights)
    return (average, np.sqrt(variance))

The pair returned here is `(average, variance)`; the source applies `np.sqrt`
to the second component before returning, which we model at the variance
level because real square roots are not computable here and the square root
is the external `np.sqrt` call. -/
def weighted_mean_and_variance (values weights : List ℚ) :
    Except NumErr (ℚ × ℚ) :=
  match np_average values weights with
  | Except.error e => Except.error e
  | Except.ok average =>
    match np_average (values.map fun v => (v - average) ^ 2) weights with
    | Except.error e => Except.error e
    | Except.ok variance => Except.ok (average, variance)

/-- Minimum of a list of rationals (`min(values)` in the claim; 0 for the
empty list, which the claims exclude). -/
def listMin : List ℚ → ℚ
  | [] => 0
  | x :: xs => xs.foldl min x

/-- Maximum of a list of rationals (`max(values)` in the claim; 0 for the
empty list, which the claims exclude). -/
def listMax : List ℚ → ℚ
  | [] => 0
  | x :: xs => xs.foldl max x

lemma foldl_min_le_init (xs : List ℚ) (a : ℚ) : xs.foldl min a ≤ a := by
  induction xs generalizing a with
  | nil => simp
  | cons y ys ih =>
    calc (y :: ys).foldl min a = ys.foldl min (min a y) := rfl
    _ ≤ min a y := ih (min a y)
    _ ≤ a := min_le_left a y

lemma foldl_min_le_mem {x : ℚ} {xs : List ℚ} (a : ℚ) (hx : x ∈ xs) :
    xs.foldl min a ≤ x := by
  induction xs generalizing a with
  | nil => cases hx
  | cons y ys ih =>
    rcases List.mem_cons.mp hx with h | h
    · subst h
      calc (x :: ys).foldl min a = ys.foldl min (min a x) := rfl
      _ ≤ min a x := foldl_min_le_init ys (min a x)
      _ ≤ x := min_le_right a x
    · exact ih (min a y) h

lemma le_foldl_max_init (xs : List ℚ) (a : ℚ) : a ≤ xs.foldl max a := by
  induction xs generalizing a with
  | nil => simp
  | cons y ys ih =>
    calc a ≤ max a y := le_max_left a y
    _ ≤ ys.foldl max (max a y) := ih (max a y)
    _ = (y :: ys).foldl max a := rfl

lemma mem_le_foldl_max {x : ℚ} {xs : List ℚ} (a : ℚ) (hx : x ∈ xs) :
    x ≤ xs.foldl max a := by
  induction xs generalizing a with
  | nil => cases hx
  | cons y ys ih =>
    rcases List.mem_cons.mp hx with h | h
    · subst h
      calc x ≤ max a x := le_max_right a x
      _ ≤ ys.foldl max (max a x) := le_foldl_max_init ys (max a x)
      _ = (x :: ys).foldl max a := rfl
    · exact ih (max a y) h

lemma listMin_le_mem {x : ℚ} {xs : List ℚ} (hx : x ∈ xs) : listMin xs ≤ x := by
  cases xs with
  | nil => cases hx
  | cons y ys =>
    rcases List.mem_cons.mp hx with h | h
    · subst h
      exact foldl_min_le_init ys x
    · exact foldl_min_le_mem y h

lemma mem_le_listMax {x : ℚ} {xs : List ℚ} (hx : x ∈ xs) : x ≤ listMax xs := by
  cases xs with
  | nil => cases hx
  | cons y ys =>
    rcases List.mem_cons.mp hx with h | h
    · subst h
      exact le_foldl_max_init ys x
    · exact mem_le_foldl_max y h

/-- A lower bound on all values gives a lower bound on the weighted sum, when
the weights are non-negative. -/
lemma mul_sum_le_zipWith_sum (m : ℚ) :
    ∀ (v w : List ℚ), v.length = w.length → (∀ x ∈ w, 0 ≤ x) →
      (∀ x ∈ v, m ≤ x) →
      m * w.sum ≤ (List.zipWith (fun a b => a * b) v w).sum := by
  intro v
  induction v with
  | nil =>
    intro w hlen _ _
    have : w = [] := List.eq_nil_of_length_eq_zero hlen.symm
    subst this
    simp
  | cons x xs ih =>
    intro w hlen hw hv
    cases w with
    | nil => simp at hlen
    | cons y ys =>
      have hy : 0 ≤ y := hw y (List.mem_cons_self y ys)
      have hx : m ≤ x := hv x (List.mem_cons_self x xs)
      have h1 : m * y ≤ x * y := mul_le_mul_of_nonneg_right hx hy
      have h2 : m * ys.sum ≤ (List.zipWith (fun a b => a * b) xs ys).sum :=
        ih ys (by simpa using hlen) (fun z hz => hw z (List.mem_cons_of_mem y hz))
          (fun z hz => hv z (List.mem_cons_of_mem x hz))
      calc m * (y :: ys).sum = m * y + m * ys.sum := by
            simp [List.sum_cons, mul_add]
      _ ≤ x * y + (List.zipWith (fun a b => a * b) xs ys).sum := add_le_add h1 h2
      _ = (List.zipWith (fun a b => a * b) (x :: xs) (y :: ys)).sum := by
            simp [List.sum_cons]

/-- An upper bound on all values gives an upper bound on the weighted sum,
when the weights are non-negative. -/
lemma zipWith_sum_le_mul_sum (m : ℚ) :
    ∀ (v w : List ℚ), v.length = w.length → (∀ x ∈ w, 0 ≤ x) →
      (∀ x ∈ v, x ≤ m) →
      (List.zipWith (fun a b => a * b) v w).sum ≤ m * w.sum := by
  intro v
  induction v with
  | nil =>
    intro w hlen _ _
    have : w = [] := List.eq_nil_of_length_eq_zero hlen.symm
    subst this
    simp
  | cons x xs ih =>
    intro w hlen hw hv
    cases w with
    | nil => simp at hlen
    | cons y ys =>
      have hy : 0 ≤ y := hw y (List.mem_cons_self y ys)
      have hx : x ≤ m := hv x (List.mem_cons_self x xs)
      have h1 : x * y ≤ m * y := mul_le_mul_of_nonneg_right hx hy
      have h2 : (List.zipWith (fun a b => a * b) xs ys).sum ≤ m * ys.sum :=
        ih ys (by simpa using hlen) (fun z hz => hw z (List.mem_cons_of_mem y hz))
          (fun z hz => hv z (List.mem_cons_of_mem x hz))
      calc (List.zipWith (fun a b => a * b) (x :: xs) (y :: ys)).sum
          = x * y + (List.zipWith (fun a b => a * b) xs ys).sum := by
            simp [List.sum_cons]
      _ ≤ m * y + m * ys.sum := add_le_add h1 h2
      _ = m * (y :: ys).sum := by simp [List.sum_cons, mul_add]

/-- A sum of products of non-negative factors is non-negative. -/
lemma zipWith_sum_nonneg :
    ∀ (v w : List ℚ), (∀ x ∈ v, 0 ≤ x) → (∀ x ∈ w, 0 ≤ x) →
      0 ≤ (List.zipWith (fun a b => a * b) v w).sum := by
  intro v
  induction v with
  | nil => intro w _ _; simp
  | cons x xs ih =>
    intro w hv hw
    cases w with
    | nil => simp
    | cons y ys =>
      have h1 : 0 ≤ x * y :=
        mul_nonneg (hv x (List.mem_cons_self x xs)) (hw y (List.mem_cons_self y ys))
      have h2 : 0 ≤ (List.zipWith (fun a b => a * b) xs ys).sum :=
        ih ys (fun z hz => hv z (List.mem_cons_of_mem x hz))
          (fun z hz => hw z (List.mem_cons_of_mem y hz))
      calc (0 : ℚ) ≤ x * y + (List.zipWith (fun a b => a * b) xs ys).sum :=
            add_nonneg h1 h2
      _ = (List.zipWith (fun a b => a * b) (x :: xs) (y :: ys)).sum := by
            simp [List.sum_cons]

/-- Embedding of the aggregation loop of
`src/aggregator/scripts/tutorial_2_lens_models.py` (lines 129-150).  Each
element of `outputs` stands for one `multi_nest_output`, given as the pair of
the `sample_masses` and `sample_weights` lists collected by the inner loop.
The source computes `value, error = weighted_mean_and_standard_deviation(...)`
and then executes `einstein_masses.append(value)` and
`einstein_mass_errors.append(value)`; the `error` binding is never used. -/
def aggregator_einstein_masses_and_errors :
    List (List ℚ × List ℚ) → Except NumErr (List ℚ × List ℚ)
  | [] => Except.ok ([], [])
  | (sample_masses, sample_weights) :: rest =>
    match weighted_mean_and_variance sample_masses sample_weights with
    | Except.error e => Except.error e
    | Except.ok (value, _error) =>
      match aggregator_einstein_masses_and_errors rest with
      | Except.error e => Except.error e
      | Except.ok (einstein_masses, einstein_mass_errors) =>
        Except.ok (value :: einstein_masses, value :: einstein_mass_errors)

/-- The spec's textbook weighted mean, written from the spec's formula
`mu = (sum_i w_i * v_i) / (sum_i w_i)`, for comparison with the definition
embedded from the source. -/
def textbook_weighted_mean (values weights : List ℚ) : ℚ :=
  (∑ i ∈ Finset.range values.length, weights.getD i 0 * values.getD i 0)
    / weights.sum

/-- The spec's textbook weighted variance, written from the spec's formula
`sigma^2 = (sum_i w_i * (v_i - mu)^2) / (sum_i w_i)`, for comparison with the
definition embedded from the source (the source's returned deviation is
`np.sqrt` of this quantity). -/
def textbook_weighted_variance (values weights : List ℚ) : ℚ :=
  (∑ i ∈ Finset.range values.length,
      weights.getD i 0 *
        (values.getD i 0 - textbook_weighted_mean values weights) ^ 2)
    / weights.sum

/-- The pointwise-product sum over zipped lists equals the index-wise textbook
sum, allowing a function `f` applied to the values. -/
lemma zipWith_map_sum_eq (f : ℚ → ℚ) :
    ∀ (v w : List ℚ), v.length = w.length →
      (List.zipWith (fun a b => a * b) (v.map f) w).sum
        = ∑ i ∈ Finset.range v.length, w.getD i 0 * f (v.getD i 0) := by
  intro v
  induction v with
  | nil =>
    intro w hlen
    simp
  | cons x xs ih =>
    intro w hlen
    cases w with
    | nil => simp at hlen
    | cons y ys =>
      have hlen2 : xs.length = ys.length := by simpa using hlen
      have hrec := ih ys hlen2
      calc (List.zipWith (fun a b => a * b) ((x :: xs).map f) (y :: ys)).sum
          = f x * y + (List.zipWith (fun a b => a * b) (xs.map f) ys).sum := by
            simp [List.sum_cons]
      _ = f x * y + ∑ i ∈ Finset.range xs.length, ys.getD i 0 * f (xs.getD i 0) := by
            rw [hrec]
      _ = ∑ i ∈ Finset.range (x :: xs).length,
            (y :: ys).getD i 0 * f ((x :: xs).getD i 0) := by
            rw [List.length_cons, Finset.sum_range_succ']
            simp [mul_comm, add_comm]

/-- C4: `weighted_mean_and_standard_deviation` computes the textbook weighted
mean and variance: for every pair of non-empty equal-length rational arrays
with weights summing to a non-zero number, it returns the mean
`(sum_i w_i * v_i) / (sum_i w_i)` and the variance
`(sum_i w_i * (v_i - mu)^2) / (sum_i w_i)` (of which the source takes
`np.sqrt` to obtain the returned deviation). -/
theorem weighted_mean_matches_textbook (values weights : List ℚ)
    (_hne : values ≠ []) (hlen : values.length = weights.length)
    (hsum : weights.sum ≠ 0) :
    weighted_mean_and_variance values weights
      = Except.ok (textbook_weighted_mean values weights,
          textbook_weighted_variance values weights) := by
  have havg : np_average values weights
      = Except.ok (textbook_weighted_mean values weights) := by
    have h := zipWith_map_sum_eq id values weights hlen
    simp only [List.map_id, id_eq] at h
    rw [np_average, if_neg hsum, textbook_weighted_mean, h]
  have hvar : np_average
        (values.map fun v => (v - textbook_weighted_mean values weights) ^ 2)
        weights
      = Except.ok (textbook_weighted_variance values weights) := by
    have h := zipWith_map_sum_eq
      (fun v => (v - textbook_weighted_mean values weights) ^ 2) values weights hlen
    rw [np_average, if_neg hsum, textbook_weighted_variance, h]
  simp only [weighted_mean_and_variance, havg, hvar]

/-- Witness for C4 at a concrete input. -/
theorem weighted_mean_matches_textbook_witness :
    (([1, 3] : List ℚ) ≠ [] ∧
      ([1, 3] : List ℚ).length = ([1, 1] : List ℚ).length ∧
      ([1, 1] : List ℚ).sum ≠ 0) ∧
    weighted_mean_and_variance [1, 3] [1, 1]
      = Except.ok (textbook_weighted_mean [1, 3] [1, 1],
          textbook_weighted_variance [1, 3] [1, 1]) :=
  ⟨⟨by simp, by simp, by norm_num⟩,
    weighted_mean_matches_textbook [1, 3] [1, 1] (by simp) (by simp) (by norm_num)⟩

/-- C1 counterexample: the weights `[2, -1]` sum to `1 > 0`, yet on the values
`[0, 1]` the helper returns the mean `-1`, which lies strictly below
`min(values) = 0` (and the variance is `-2`, whose square root is not a
non-negative number).  So the claim fails as stated: a positive weight sum
does not keep the mean inside `[min(values), max(values)]`. -/
theorem weighted_mean_claim_fails_for_negative_weights :
    ([0, 1] : List ℚ) ≠ [] ∧
    ([0, 1] : List ℚ).length = ([2, -1] : List ℚ).length ∧
    0 < ([2, -1] : List ℚ).sum ∧
    ¬ ∃ p, weighted_mean_and_variance [0, 1] [2, -1] = Except.ok p ∧
        listMin [0, 1] ≤ p.1 ∧ p.1 ≤ listMax [0, 1] ∧ 0 ≤ p.2 := by
  refine ⟨by simp, by simp, by norm_num, ?_⟩
  rintro ⟨p, hp, hmin, hmax, hvar⟩
  have hval : weighted_mean_and_variance [0, 1] [2, -1] = Except.ok (-1, -2) := by
    simp [weighted_mean_and_variance, np_average]
    norm_num
  rw [hval] at hp
  cases hp
  rw [show listMin [0, 1] = 0 by simp [listMin]] at hmin
  norm_num at hmin

/-- C1 (amended): for every pair of non-empty value/weight arrays of equal
length with non-negative weights summing to a positive number,
`weighted_mean_and_standard_deviation` returns a mean within
`[min(values), max(values)]` and a non-negative variance (hence a
non-negative standard deviation `np.sqrt(variance)`). -/
theorem weighted_mean_within_range_of_nonneg_weights (values weights : List ℚ)
    (_hne : values ≠ []) (hlen : values.length = weights.length)
    (hw : ∀ x ∈ weights, 0 ≤ x) (hpos : 0 < weights.sum) :
    ∃ p, weighted_mean_and_variance values weights = Except.ok p ∧
      listMin values ≤ p.1 ∧ p.1 ≤ listMax values ∧ 0 ≤ p.2 := by
  have hsum : weights.sum ≠ 0 := ne_of_gt hpos
  set S := (List.zipWith (fun v w => v * w) values weights).sum with hS
  set μ := S / weights.sum with hμ
  have havg : np_average values weights = Except.ok μ := by
    rw [np_average, if_neg hsum]
  set S2 := (List.zipWith (fun v w => v * w)
    (values.map fun v => (v - μ) ^ 2) weights).sum with hS2
  have hvar : np_average (values.map fun v => (v - μ) ^ 2) weights
      = Except.ok (S2 / weights.sum) := by
    rw [np_average, if_neg hsum]
  refine ⟨(μ, S2 / weights.sum), ?_, ?_, ?_, ?_⟩
  · simp only [weighted_mean_and_variance, havg, hvar]
  · have hbound : listMin values * weights.sum ≤ S :=
      mul_sum_le_zipWith_sum (listMin values) values weights hlen hw
        (fun x hx => listMin_le_mem hx)
    exact (le_div_iff₀ hpos).mpr hbound
  · have hbound : S ≤ listMax values * weights.sum :=
      zipWith_sum_le_mul_sum (listMax values) values weights hlen hw
        (fun x hx => mem_le_listMax hx)
    exact (div_le_iff₀ hpos).mpr hbound
  · have hnn : 0 ≤ S2 := by
      apply zipWith_sum_nonneg
      · intro x hx
        rcases List.mem_map.mp hx with ⟨a, _, rfl⟩
        positivity
      · exact hw
    exact div_nonneg hnn (le_of_lt hpos)

/-- Witness for the amended C1 at a concrete input. -/
theorem weighted_mean_within_range_witness :
    (([1, 3] : List ℚ) ≠ [] ∧
      ([1, 3] : List ℚ).length = ([1, 1] : List ℚ).length ∧
      (∀ x ∈ ([1, 1] : List ℚ), 0 ≤ x) ∧ 0 < ([1, 1] : List ℚ).sum) ∧
    ∃ p, weighted_mean_and_variance [1, 3] [1, 1] = Except.ok p ∧
      listMin [1, 3] ≤ p.1 ∧ p.1 ≤ listMax [1, 3] ∧ 0 ≤ p.2 := by
  have hwnn : ∀ x ∈ ([1, 1] : List ℚ), 0 ≤ x := by
    intro x hx
    rcases List.mem_cons.mp hx with h | h
    · subst h; norm_num
    · simp at h; subst h; norm_num
  refine ⟨⟨by simp, by simp, hwnn, by norm_num⟩, ?_⟩
  exact weighted_mean_within_range_of_nonneg_weights [1, 3] [1, 1]
    (by simp) (by simp) hwnn (by norm_num)

/-- C10: for non-empty equal-length rational inputs the helper returns a
result exactly when the weights sum to a non-zero number, and raises
`ZeroDivisionError` when the weights sum to zero; moreover it succeeds on the
input `values = [1]`, `weights = [-1]`, whose weight sum is non-zero but not
positive, so the spec's positive-sum precondition is strictly stronger than
what is needed to avoid the failure. -/
theorem weighted_mean_succeeds_iff_weights_sum_nonzero :
    (∀ (values weights : List ℚ), values ≠ [] →
      values.length = weights.length →
      ((∃ r, weighted_mean_and_variance values weights = Except.ok r) ↔
        weights.sum ≠ 0) ∧
      (weights.sum = 0 →
        weighted_mean_and_variance values weights
          = Except.error NumErr.zeroDivision)) ∧
    (weighted_mean_and_variance [1] [-1] = Except.ok (1, 0) ∧
      ¬ 0 < ([-1] : List ℚ).sum) := by
  constructor
  · intro values weights hne hlen
    constructor
    · constructor
      · rintro ⟨r, hr⟩ hzero
        simp [weighted_mean_and_variance, np_average, hzero] at hr
      · intro hsum
        simp only [weighted_mean_and_variance, np_average, if_neg hsum]
        exact ⟨_, rfl⟩
    · intro hzero
      simp [weighted_mean_and_variance, np_average, hzero]
  · constructor
    · norm_num [weighted_mean_and_variance, np_average]
    · norm_num

/-- Witness for C10 at a concrete input. -/
theorem weighted_mean_succeeds_iff_witness :
    (([1, 2] : List ℚ) ≠ [] ∧
      ([1, 2] : List ℚ).length = ([1, 1] : List ℚ).length) ∧
    ((∃ r, weighted_mean_and_variance [1, 2] [1, 1] = Except.ok r) ↔
      ([1, 1] : List ℚ).sum ≠ 0) :=
  ⟨⟨by simp, by simp⟩,
    (weighted_mean_succeeds_iff_weights_sum_nonzero.1 [1, 2] [1, 1]
      (by simp) (by simp)).1⟩

/-- C3: after the aggregation loop, `einstein_mass_errors` is element-wise
equal to `einstein_masses`: the loop appends the weighted mean to both lists
and the error returned by `weighted_mean_and_standard_deviation` is
discarded. -/
theorem einstein_mass_errors_equal_means (outputs : List (List ℚ × List ℚ))
    (r : List ℚ × List ℚ)
    (h : aggregator_einstein_masses_and_errors outputs = Except.ok r) :
    r.1 = r.2 := by
  induction outputs generalizing r with
  | nil =>
    simp [aggregator_einstein_masses_and_errors] at h
    rw [← h]
  | cons o rest ih =>
    obtain ⟨ms, ws⟩ := o
    rw [aggregator_einstein_masses_and_errors] at h
    cases hw : weighted_mean_and_variance ms ws with
    | error e => rw [hw] at h; cases h
    | ok p =>
      obtain ⟨v, err⟩ := p
      rw [hw] at h
      cases hrec : aggregator_einstein_masses_and_errors rest with
      | error e => rw [hrec] at h; cases h
      | ok q =>
        obtain ⟨a, b⟩ := q
        rw [hrec] at h
        cases h
        have hab : a = b := ih (a, b) hrec
        simp [hab]

/-- Witness for C3 at a concrete input. -/
theorem einstein_mass_errors_equal_means_witness :
    aggregator_einstein_masses_and_errors [([1, 3], [1, 1]), ([2], [1])]
      = Except.ok ([2, 2], [2, 2]) ∧
    (([2, 2], [2, 2]) : List ℚ × List ℚ).1 = (([2, 2], [2, 2]) : List ℚ × List ℚ).2 := by
  have h : aggregator_einstein_masses_and_errors [([1, 3], [1, 1]), ([2], [1])]
      = Except.ok ([2, 2], [2, 2]) := by
    simp [aggregator_einstein_masses_and_errors, weighted_mean_and_variance,
      np_average]
    norm_num
  exact ⟨h, einstein_mass_errors_equal_means [([1, 3], [1, 1]), ([2], [1])]
    ([2, 2], [2, 2]) h⟩

/-- A reference made by a phase's prior configuration to a completed result,
as written in the pipeline files:

* `phaseObj k` — a direct attribute access `phaseK.result...` on the phase
  object constructed `k`-th (0-based) in the same `make_pipeline`;
* `named s` — `results.from_phase(s)` inside a `pass_priors` body, resolved
  by phase name (a name that is not a phase of this pipeline refers to a
  phase of a previously completed pipeline);
* `lastPipeline` — `af.last...`, the result of the last completed pipeline;
* `relative j` — `results[-j]` inside a phase body (the `j`-th most recently
  completed phase of this pipeline). -/
inductive ResultRef where
  | phaseObj (k : Nat)
  | named (s : String)
  | lastPipeline
  | relative (j : Nat)
  deriving DecidableEq, Repr

/-- One phase as constructed in a `make_pipeline` function: its `phase_name`
and the list of result references its prior configuration makes (in its
`pass_priors` body, `modify_image` body, and result-referencing constructor
arguments). -/
structure PhaseSpec where
  name : String
  deps : List ResultRef
  deriving DecidableEq, Repr

/-- One `make_pipeline` function: the phases in construction order and the
indices (into the construction order) of the phases passed to the returned
pipeline object, in the order they are passed. -/
structure PipelineSpec where
  pipelineName : String
  phases : List PhaseSpec
  returned : List Nat
  deriving DecidableEq, Repr

/-- Index of the first phase with the given name, if any. -/
def idxOf? : List String → String → Option Nat
  | [], _ => none
  | x :: xs, s => if x = s then some 0 else (idxOf? xs s).map (· + 1)

/-- Whether a reference made by the phase at construction index `i` only
reaches results available before phase `i` runs: an earlier phase of the same
pipeline, or any phase of a previously completed pipeline. -/
def okRef (names : List String) (i : Nat) : ResultRef → Bool
  | ResultRef.phaseObj k => decide (k < i)
  | ResultRef.named s =>
    match idxOf? names s with
    | some k => decide (k < i)
    | none => true
  | ResultRef.lastPipeline => true
  | ResultRef.relative j => decide (1 ≤ j ∧ j ≤ i)

/-- Whether a list of naturals is strictly increasing. -/
def strictlyIncreasing : List Nat → Bool
  | a :: b :: rest => decide (a < b) && strictlyIncreasing (b :: rest)
  | _ => true

/-- The order-preservation property of a pipeline: every phase's prior
configuration reads only results of phases constructed before it (or of a
previous pipeline), and the phases passed to the returned pipeline object
appear in construction order. -/
def orderPreserving (p : PipelineSpec) : Bool :=
  (p.phases.enum.all fun ip =>
    ip.2.deps.all (okRef (p.phases.map PhaseSpec.name) ip.1)) &&
  strictlyIncreasing p.returned

/-- Transcription of `src/pipelines/simple/lens_sie__source_inversion.py`:
phase 1 sets fresh `GaussianPrior`s only; phase 2 reads
`phase1.result.instance...mass` and `...shear`; phase 3 reads
`phase1.result.model...mass`, `...shear` and
`phase2.result.model...pixelization`, `...regularization`.
`al.PipelineDataset(pipeline_name, phase1, phase2, phase3)` is returned. -/
def sieSourceInversion : PipelineSpec where
  pipelineName := "pipeline__sie__source_inversion"
  phases :=
    [ { name := "phase_1__source_sersic", deps := [] },
      { name := "phase_2__source_inversion_initialization",
        deps := [ResultRef.phaseObj 0, ResultRef.phaseObj 0] },
      { name := "phase_3__inversion",
        deps := [ResultRef.phaseObj 0, ResultRef.phaseObj 0,
          ResultRef.phaseObj 1, ResultRef.phaseObj 1] } ]
  returned := [0, 1, 2]

/-- Transcription of
`src/pipelines/simple/lens_sersic_sie_shear_source_sersic.py`: phase 1 sets
fresh `GaussianPrior`s; phase 2's `modify_image` reads `results[-1]` and its
`pass_priors` reads `phase_1_lens_sersic` twice; phase 3 reads
`phase_1_lens_sersic` once and `phase_2_lens_sie_shear_source_sersic` three
times.  `pipeline.PipelineImaging(pipeline_name, phase1, phase2, phase3)` is
returned. -/
def sersicSieShearSourceSersic : PipelineSpec where
  pipelineName := "pl__lens_sersic_sie_shear_source_x1_sersic"
  phases :=
    [ { name := "phase_1_lens_sersic", deps := [] },
      { name := "phase_2_lens_sie_shear_source_sersic",
        deps := [ResultRef.relative 1,
          ResultRef.named "phase_1_lens_sersic",
          ResultRef.named "phase_1_lens_sersic"] },
      { name := "phase_3_lens_sersic_sie_shear_source_sersic",
        deps := [ResultRef.named "phase_1_lens_sersic",
          ResultRef.named "phase_2_lens_sie_shear_source_sersic",
          ResultRef.named "phase_2_lens_sie_shear_source_sersic",
          ResultRef.named "phase_2_lens_sie_shear_source_sersic"] } ]
  returned := [0, 1, 2]

/-- Transcription of
`src/pipelines/with_lens_light/inversion/from_initialize/lens_sersic_sie_shear_source_inversion.py`:
phase 1 reads `phase_3_lens_sersic_sie_shear_source_sersic` (a phase of the
previously completed initializer pipeline — not a phase of this pipeline);
phase 2 reads that previous-pipeline phase twice (the second read behind
`if pl_fix_lens_light`) and `phase_1_initialize_inversion` twice; phase 3
reads `phase_2_lens_sersic_sie_shear_source_inversion` twice.  The function
returns `pipeline.PipelineImaging(pipeline_name, phase1, phase2)`: the
constructed `phase3` is not passed to the returned pipeline. -/
def withLensLightInversion : PipelineSpec where
  pipelineName := "pipeline_inv__lens_sersic_sie_shear_source_inversion"
  phases :=
    [ { name := "phase_1_initialize_inversion",
        deps := [ResultRef.named "phase_3_lens_sersic_sie_shear_source_sersic"] },
      { name := "phase_2_lens_sersic_sie_shear_source_inversion",
        deps := [ResultRef.named "phase_3_lens_sersic_sie_shear_source_sersic",
          ResultRef.named "phase_3_lens_sersic_sie_shear_source_sersic",
          ResultRef.named "phase_1_initialize_inversion",
          ResultRef.named "phase_1_initialize_inversion"] },
      { name := "phase_3_lens_sersic_sie_shear_refine_source_inversion",
        deps := [ResultRef.named "phase_2_lens_sersic_sie_shear_source_inversion",
          ResultRef.named "phase_2_lens_sersic_sie_shear_source_inversion"] } ]
  returned := [0, 1]

/-- Transcription of
`src/pipelines/hyper/with_lens_light/sersic/inversion/from_initialize/lens_sersic_sie_shear_source_inversion.py`:
phase 1 reads `phase_3_lens_sersic_sie_shear_source_sersic` (previous
pipeline) up to three times (two reads behind `if pl_hyper_galaxies`);
phase 2 reads that previous-pipeline phase twice and
`phase_1_initialize_inversion` three times.  The function returns
`pipeline.PipelineImaging(pipeline_name, phase1, phase2)`. -/
def hyperWithLensLightInversion : PipelineSpec where
  pipelineName := "pipeline_inv__lens_sersic_sie_shear_source_inversion"
  phases :=
    [ { name := "phase_1_initialize_inversion",
        deps := [ResultRef.named "phase_3_lens_sersic_sie_shear_source_sersic",
          ResultRef.named "phase_3_lens_sersic_sie_shear_source_sersic",
          ResultRef.named "phase_3_lens_sersic_sie_shear_source_sersic"] },
      { name := "phase_2_lens_sersic_sie_shear_source_inversion",
        deps := [ResultRef.named "phase_3_lens_sersic_sie_shear_source_sersic",
          ResultRef.named "phase_3_lens_sersic_sie_shear_source_sersic",
          ResultRef.named "phase_1_initialize_inversion",
          ResultRef.named "phase_1_initialize_inversion",
          ResultRef.named "phase_1_initialize_inversion"] } ]
  returned := [0, 1]

/-- Transcription of
`src/pipelines/advanced/with_lens_light/source/parametric/lens_bulge_disk_sie__source_sersic.py`:
phase 2 reads `phase1.result` for the mass centre (instance or
`model_absolute(a=0.1)`), the bulge, disk and hyper components; phase 3 reads
`phase2.result` for mass, shear, source light and hyper components; phase 4
reads `phase3.result` (bulge, disk, hyper components) and `phase2.result`
(mass, shear, source light).
`al.PipelineDataset(pipeline_name, phase1, phase2, phase3, phase4)` is
returned. -/
def bulgeDiskSieSourceSersic : PipelineSpec where
  pipelineName := "pipeline_source__parametric__bulge_disk"
  phases :=
    [ { name := "phase_1__lens_bulge_disk", deps := [] },
      { name := "phase_2__lens_sie__source_sersic",
        deps := [ResultRef.phaseObj 0, ResultRef.phaseObj 0,
          ResultRef.phaseObj 0, ResultRef.phaseObj 0, ResultRef.phaseObj 0,
          ResultRef.phaseObj 0, ResultRef.phaseObj 0, ResultRef.phaseObj 0] },
      { name := "phase_3__lens_bulge_disk_sie__source_fixed",
        deps := [ResultRef.phaseObj 1, ResultRef.phaseObj 1,
          ResultRef.phaseObj 1, ResultRef.phaseObj 1, ResultRef.phaseObj 1,
          ResultRef.phaseObj 1, ResultRef.phaseObj 1] },
      { name := "phase_4__lens_bulge_disk_sie__source_sersic",
        deps := [ResultRef.phaseObj 2, ResultRef.phaseObj 2,
          ResultRef.phaseObj 1, ResultRef.phaseObj 1, ResultRef.phaseObj 2,
          ResultRef.phaseObj 1, ResultRef.phaseObj 2, ResultRef.phaseObj 2,
          ResultRef.phaseObj 2] } ]
  returned := [0, 1, 2, 3]

/-- Transcription of
`src/pipelines/advanced/with_lens_light/light/gaussians/lens_gaussians_sie__source.py`:
the single phase reads `af.last` (the previously completed pipeline) for the
hyper-galaxy instance and noise factor, the lens mass and shear, the source,
and the hyper sky and background noise.
`al.PipelineDataset(pipeline_name, phase1)` is returned. -/
def gaussiansSieSource : PipelineSpec where
  pipelineName := "pipeline_light__gaussians"
  phases :=
    [ { name := "phase_1__lens_bulge_disk_sie__source",
        deps := [ResultRef.lastPipeline, ResultRef.lastPipeline,
          ResultRef.lastPipeline, ResultRef.lastPipeline,
          ResultRef.lastPipeline, ResultRef.lastPipeline,
          ResultRef.lastPipeline] } ]
  returned := [0]

/-- All six `make_pipeline` functions of the repository. -/
def allPipelines : List PipelineSpec :=
  [sieSourceInversion, sersicSieShearSourceSersic, withLensLightInversion,
    hyperWithLensLightInversion, bulgeDiskSieSourceSersic, gaussiansSieSource]

/-- C2: the prior-passing chain is order-preserving in every pipeline's
`make_pipeline`: each constructed phase's prior configuration reads only
results of phases constructed before it (earlier phases of the same pipeline
or phases of a previously completed pipeline), never a later phase, and the
phases are passed to the returned pipeline object in construction order. -/
theorem prior_passing_order_preserving :
    allPipelines.all orderPreserving = true := by decide

/-- C6: `make_pipeline` in
`src/pipelines/with_lens_light/inversion/from_initialize/lens_sersic_sie_shear_source_inversion.py`
constructs three phases but returns a pipeline containing exactly the first
two: the third constructed phase
(`phase_3_lens_sersic_sie_shear_refine_source_inversion`) is never included
in the returned pipeline. -/
theorem third_phase_not_returned :
    withLensLightInversion.phases.map PhaseSpec.name
      = ["phase_1_initialize_inversion",
        "phase_2_lens_sersic_sie_shear_source_inversion",
        "phase_3_lens_sersic_sie_shear_refine_source_inversion"] ∧
    withLensLightInversion.returned = [0, 1] ∧
    2 ∉ withLensLightInversion.returned := by
  refine ⟨rfl, rfl, ?_⟩
  decide

/-- The syntactic form of one parameter binding performed while configuring a
phase's priors in the pipeline files:

* `resultInstance` — fixed to a completed phase's best-fit value (an
  `instance`/`constant` attribute of a result);
* `resultModel` — set to an adjustable distribution from a completed phase's
  posterior (a `model`/`variable` attribute of a result);
* `resultModelAbsolute` — as `resultModel` but re-centred with absolute
  scatter, `result.model_absolute(a=0.1)...`;
* `freshPrior` — set to a manually constructed distribution such as
  `af.GaussianPrior(mean=0.0, sigma=0.1)`;
* `setupValue` — set to a value supplied by the pipeline setup object, such
  as `setup.source.lens_light_centre`;
* `alignWithin` — aliased to another parameter of the same phase's model,
  such as `lens.bulge.centre = lens.disk.centre`;
* `removed` — set to `None`, removing the component from the model. -/
inductive BindingForm where
  | resultInstance
  | resultModel
  | resultModelAbsolute
  | freshPrior
  | setupValue
  | alignWithin
  | removed
  deriving DecidableEq, Repr

/-- One parameter binding performed during prior configuration in a pipeline
file: the file, the phase being configured, the parameter path assigned, and
whether the assigned expression reads a completed phase's result
(`phaseK.result...`, `results.from_phase(...)` or `af.last...`), together
with its syntactic form. -/
structure Binding where
  file : String
  phase : String
  param : String
  readsResult : Bool
  form : BindingForm
  deriving DecidableEq, Repr

/-- All parameter bindings performed during prior configuration across the
six pipeline files, transcribed assignment by assignment (conditional
branches contribute their assignments as written). -/
def priorPassingBindings : List Binding := [
  -- src/pipelines/simple/lens_sie__source_inversion.py
  ⟨"simple/lens_sie__source_inversion.py", "phase_1__source_sersic",
    "lens.mass.centre_0", false, BindingForm.freshPrior⟩,
  ⟨"simple/lens_sie__source_inversion.py", "phase_1__source_sersic",
    "lens.mass.centre_1", false, BindingForm.freshPrior⟩,
  ⟨"simple/lens_sie__source_inversion.py", "phase_2__source_inversion_initialization",
    "lens.mass", true, BindingForm.resultInstance⟩,
  ⟨"simple/lens_sie__source_inversion.py", "phase_2__source_inversion_initialization",
    "lens.shear", true, BindingForm.resultInstance⟩,
  ⟨"simple/lens_sie__source_inversion.py", "phase_3__inversion",
    "lens.mass", true, BindingForm.resultModel⟩,
  ⟨"simple/lens_sie__source_inversion.py", "phase_3__inversion",
    "lens.shear", true, BindingForm.resultModel⟩,
  ⟨"simple/lens_sie__source_inversion.py", "phase_3__inversion",
    "source.pixelization", true, BindingForm.resultModel⟩,
  ⟨"simple/lens_sie__source_inversion.py", "phase_3__inversion",
    "source.regularization", true, BindingForm.resultModel⟩,
  -- src/pipelines/simple/lens_sersic_sie_shear_source_sersic.py
  ⟨"simple/lens_sersic_sie_shear_source_sersic.py", "phase_1_lens_sersic",
    "lens.light.centre_0", false, BindingForm.freshPrior⟩,
  ⟨"simple/lens_sersic_sie_shear_source_sersic.py", "phase_1_lens_sersic",
    "lens.light.centre_1", false, BindingForm.freshPrior⟩,
  ⟨"simple/lens_sersic_sie_shear_source_sersic.py", "phase_2_lens_sie_shear_source_sersic",
    "lens.mass.centre_0", true, BindingForm.resultModel⟩,
  ⟨"simple/lens_sersic_sie_shear_source_sersic.py", "phase_2_lens_sie_shear_source_sersic",
    "lens.mass.centre_1", true, BindingForm.resultModel⟩,
  ⟨"simple/lens_sersic_sie_shear_source_sersic.py", "phase_3_lens_sersic_sie_shear_source_sersic",
    "lens.light", true, BindingForm.resultModel⟩,
  ⟨"simple/lens_sersic_sie_shear_source_sersic.py", "phase_3_lens_sersic_sie_shear_source_sersic",
    "lens.mass", true, BindingForm.resultModel⟩,
  ⟨"simple/lens_sersic_sie_shear_source_sersic.py", "phase_3_lens_sersic_sie_shear_source_sersic",
    "lens.shear", true, BindingForm.resultModel⟩,
  ⟨"simple/lens_sersic_sie_shear_source_sersic.py", "phase_3_lens_sersic_sie_shear_source_sersic",
    "source", true, BindingForm.resultModel⟩,
  -- src/pipelines/with_lens_light/inversion/from_initialize/
  --   lens_sersic_sie_shear_source_inversion.py
  ⟨"with_lens_light/inversion/from_initialize/lens_sersic_sie_shear_source_inversion.py",
    "phase_1_initialize_inversion", "lens", true, BindingForm.resultInstance⟩,
  ⟨"with_lens_light/inversion/from_initialize/lens_sersic_sie_shear_source_inversion.py",
    "phase_2_lens_sersic_sie_shear_source_inversion", "lens", true, BindingForm.resultModel⟩,
  ⟨"with_lens_light/inversion/from_initialize/lens_sersic_sie_shear_source_inversion.py",
    "phase_2_lens_sersic_sie_shear_source_inversion", "lens.light", true,
    BindingForm.resultInstance⟩,
  ⟨"with_lens_light/inversion/from_initialize/lens_sersic_sie_shear_source_inversion.py",
    "phase_2_lens_sersic_sie_shear_source_inversion", "source.pixelization", true,
    BindingForm.resultInstance⟩,
  ⟨"with_lens_light/inversion/from_initialize/lens_sersic_sie_shear_source_inversion.py",
    "phase_2_lens_sersic_sie_shear_source_inversion", "source.regularization", true,
    BindingForm.resultModel⟩,
  ⟨"with_lens_light/inversion/from_initialize/lens_sersic_sie_shear_source_inversion.py",
    "phase_3_lens_sersic_sie_shear_refine_source_inversion", "lens", true,
    BindingForm.resultInstance⟩,
  ⟨"with_lens_light/inversion/from_initialize/lens_sersic_sie_shear_source_inversion.py",
    "phase_3_lens_sersic_sie_shear_refine_source_inversion", "source", true,
    BindingForm.resultModel⟩,
  -- src/pipelines/hyper/with_lens_light/sersic/inversion/from_initialize/
  --   lens_sersic_sie_shear_source_inversion.py
  ⟨"hyper/with_lens_light/sersic/inversion/from_initialize/lens_sersic_sie_shear_source_inversion.py",
    "phase_1_initialize_inversion", "lens", true, BindingForm.resultInstance⟩,
  ⟨"hyper/with_lens_light/sersic/inversion/from_initialize/lens_sersic_sie_shear_source_inversion.py",
    "phase_1_initialize_inversion", "lens.hyper_galaxy", true, BindingForm.resultInstance⟩,
  ⟨"hyper/with_lens_light/sersic/inversion/from_initialize/lens_sersic_sie_shear_source_inversion.py",
    "phase_1_initialize_inversion", "source.hyper_galaxy", true, BindingForm.resultInstance⟩,
  ⟨"hyper/with_lens_light/sersic/inversion/from_initialize/lens_sersic_sie_shear_source_inversion.py",
    "phase_2_lens_sersic_sie_shear_source_inversion", "lens", true, BindingForm.resultModel⟩,
  ⟨"hyper/with_lens_light/sersic/inversion/from_initialize/lens_sersic_sie_shear_source_inversion.py",
    "phase_2_lens_sersic_sie_shear_source_inversion", "lens.light", true,
    BindingForm.resultInstance⟩,
  ⟨"hyper/with_lens_light/sersic/inversion/from_initialize/lens_sersic_sie_shear_source_inversion.py",
    "phase_2_lens_sersic_sie_shear_source_inversion", "source", true,
    BindingForm.resultInstance⟩,
  ⟨"hyper/with_lens_light/sersic/inversion/from_initialize/lens_sersic_sie_shear_source_inversion.py",
    "phase_2_lens_sersic_sie_shear_source_inversion", "lens.hyper_galaxy", true,
    BindingForm.resultInstance⟩,
  ⟨"hyper/with_lens_light/sersic/inversion/from_initialize/lens_sersic_sie_shear_source_inversion.py",
    "phase_2_lens_sersic_sie_shear_source_inversion", "source.hyper_galaxy", true,
    BindingForm.resultInstance⟩,
  -- src/pipelines/advanced/with_lens_light/source/parametric/
  --   lens_bulge_disk_sie__source_sersic.py
  ⟨"advanced/with_lens_light/source/parametric/lens_bulge_disk_sie__source_sersic.py",
    "phase_1__lens_bulge_disk", "lens.bulge.centre", false, BindingForm.alignWithin⟩,
  ⟨"advanced/with_lens_light/source/parametric/lens_bulge_disk_sie__source_sersic.py",
    "phase_1__lens_bulge_disk", "lens.bulge.centre", false, BindingForm.setupValue⟩,
  ⟨"advanced/with_lens_light/source/parametric/lens_bulge_disk_sie__source_sersic.py",
    "phase_1__lens_bulge_disk", "lens.disk.centre", false, BindingForm.setupValue⟩,
  ⟨"advanced/with_lens_light/source/parametric/lens_bulge_disk_sie__source_sersic.py",
    "phase_1__lens_bulge_disk", "lens.disk", false, BindingForm.removed⟩,
  ⟨"advanced/with_lens_light/source/parametric/lens_bulge_disk_sie__source_sersic.py",
    "phase_2__lens_sie__source_sersic", "mass.centre", true, BindingForm.resultInstance⟩,
  ⟨"advanced/with_lens_light/source/parametric/lens_bulge_disk_sie__source_sersic.py",
    "phase_2__lens_sie__source_sersic", "mass.centre", true,
    BindingForm.resultModelAbsolute⟩,
  ⟨"advanced/with_lens_light/source/parametric/lens_bulge_disk_sie__source_sersic.py",
    "phase_2__lens_sie__source_sersic", "mass.centre", false, BindingForm.setupValue⟩,
  ⟨"advanced/with_lens_light/source/parametric/lens_bulge_disk_sie__source_sersic.py",
    "phase_2__lens_sie__source_sersic", "lens.bulge", true, BindingForm.resultInstance⟩,
  ⟨"advanced/with_lens_light/source/parametric/lens_bulge_disk_sie__source_sersic.py",
    "phase_2__lens_sie__source_sersic", "lens.disk", true, BindingForm.resultInstance⟩,
  ⟨"advanced/with_lens_light/source/parametric/lens_bulge_disk_sie__source_sersic.py",
    "phase_2__lens_sie__source_sersic", "lens.hyper_galaxy", true,
    BindingForm.resultInstance⟩,
  ⟨"advanced/with_lens_light/source/parametric/lens_bulge_disk_sie__source_sersic.py",
    "phase_2__lens_sie__source_sersic", "source.hyper_galaxy", true,
    BindingForm.resultInstance⟩,
  ⟨"advanced/with_lens_light/source/parametric/lens_bulge_disk_sie__source_sersic.py",
    "phase_2__lens_sie__source_sersic", "hyper_image_sky", true,
    BindingForm.resultInstance⟩,
  ⟨"advanced/with_lens_light/source/parametric/lens_bulge_disk_sie__source_sersic.py",
    "phase_2__lens_sie__source_sersic", "hyper_background_noise", true,
    BindingForm.resultInstance⟩,
  ⟨"advanced/with_lens_light/source/parametric/lens_bulge_disk_sie__source_sersic.py",
    "phase_3__lens_bulge_disk_sie__source_fixed", "lens.mass", true,
    BindingForm.resultInstance⟩,
  ⟨"advanced/with_lens_light/source/parametric/lens_bulge_disk_sie__source_sersic.py",
    "phase_3__lens_bulge_disk_sie__source_fixed", "lens.shear", true,
    BindingForm.resultInstance⟩,
  ⟨"advanced/with_lens_light/source/parametric/lens_bulge_disk_sie__source_sersic.py",
    "phase_3__lens_bulge_disk_sie__source_fixed", "lens.hyper_galaxy", true,
    BindingForm.resultInstance⟩,
  ⟨"advanced/with_lens_light/source/parametric/lens_bulge_disk_sie__source_sersic.py",
    "phase_3__lens_bulge_disk_sie__source_fixed", "lens.bulge.centre", false,
    BindingForm.alignWithin⟩,
  ⟨"advanced/with_lens_light/source/parametric/lens_bulge_disk_sie__source_sersic.py",
    "phase_3__lens_bulge_disk_sie__source_fixed", "lens.bulge.centre", false,
    BindingForm.setupValue⟩,
  ⟨"advanced/with_lens_light/source/parametric/lens_bulge_disk_sie__source_sersic.py",
    "phase_3__lens_bulge_disk_sie__source_fixed", "lens.disk.centre", false,
    BindingForm.setupValue⟩,
  ⟨"advanced/with_lens_light/source/parametric/lens_bulge_disk_sie__source_sersic.py",
    "phase_3__lens_bulge_disk_sie__source_fixed", "lens.disk", false,
    BindingForm.removed⟩,
  ⟨"advanced/with_lens_light/source/parametric/lens_bulge_disk_sie__source_sersic.py",
    "phase_3__lens_bulge_disk_sie__source_fixed", "source.light", true,
    BindingForm.resultInstance⟩,
  ⟨"advanced/with_lens_light/source/parametric/lens_bulge_disk_sie__source_sersic.py",
    "phase_3__lens_bulge_disk_sie__source_fixed", "source.hyper_galaxy", true,
    BindingForm.resultInstance⟩,
  ⟨"advanced/with_lens_light/source/parametric/lens_bulge_disk_sie__source_sersic.py",
    "phase_3__lens_bulge_disk_sie__source_fixed", "hyper_image_sky", true,
    BindingForm.resultInstance⟩,
  ⟨"advanced/with_lens_light/source/parametric/lens_bulge_disk_sie__source_sersic.py",
    "phase_3__lens_bulge_disk_sie__source_fixed", "hyper_background_noise", true,
    BindingForm.resultInstance⟩,
  ⟨"advanced/with_lens_light/source/parametric/lens_bulge_disk_sie__source_sersic.py",
    "phase_4__lens_bulge_disk_sie__source_sersic", "lens.bulge", true,
    BindingForm.resultModel⟩,
  ⟨"advanced/with_lens_light/source/parametric/lens_bulge_disk_sie__source_sersic.py",
    "phase_4__lens_bulge_disk_sie__source_sersic", "lens.disk", true,
    BindingForm.resultModel⟩,
  ⟨"advanced/with_lens_light/source/parametric/lens_bulge_disk_sie__source_sersic.py",
    "phase_4__lens_bulge_disk_sie__source_sersic", "lens.mass", true,
    BindingForm.resultModel⟩,
  ⟨"advanced/with_lens_light/source/parametric/lens_bulge_disk_sie__source_sersic.py",
    "phase_4__lens_bulge_disk_sie__source_sersic", "lens.shear", true,
    BindingForm.resultModel⟩,
  ⟨"advanced/with_lens_light/source/parametric/lens_bulge_disk_sie__source_sersic.py",
    "phase_4__lens_bulge_disk_sie__source_sersic", "lens.hyper_galaxy", true,
    BindingForm.resultInstance⟩,
  ⟨"advanced/with_lens_light/source/parametric/lens_bulge_disk_sie__source_sersic.py",
    "phase_4__lens_bulge_disk_sie__source_sersic", "source.light", true,
    BindingForm.resultModel⟩,
  ⟨"advanced/with_lens_light/source/parametric/lens_bulge_disk_sie__source_sersic.py",
    "phase_4__lens_bulge_disk_sie__source_sersic", "source.hyper_galaxy", true,
    BindingForm.resultInstance⟩,
  ⟨"advanced/with_lens_light/source/parametric/lens_bulge_disk_sie__source_sersic.py",
    "phase_4__lens_bulge_disk_sie__source_sersic", "hyper_image_sky", true,
    BindingForm.resultInstance⟩,
  ⟨"advanced/with_lens_light/source/parametric/lens_bulge_disk_sie__source_sersic.py",
    "phase_4__lens_bulge_disk_sie__source_sersic", "hyper_background_noise", true,
    BindingForm.resultInstance⟩,
  -- src/pipelines/advanced/with_lens_light/light/gaussians/
  --   lens_gaussians_sie__source.py
  ⟨"advanced/with_lens_light/light/gaussians/lens_gaussians_sie__source.py",
    "phase_1__lens_bulge_disk_sie__source", "lens.hyper_galaxy", true,
    BindingForm.resultInstance⟩,
  ⟨"advanced/with_lens_light/light/gaussians/lens_gaussians_sie__source.py",
    "phase_1__lens_bulge_disk_sie__source", "lens.hyper_galaxy.noise_factor", true,
    BindingForm.resultModel⟩,
  ⟨"advanced/with_lens_light/light/gaussians/lens_gaussians_sie__source.py",
    "phase_1__lens_bulge_disk_sie__source", "lens.mass", true,
    BindingForm.resultInstance⟩,
  ⟨"advanced/with_lens_light/light/gaussians/lens_gaussians_sie__source.py",
    "phase_1__lens_bulge_disk_sie__source", "lens.shear", true,
    BindingForm.resultInstance⟩,
  ⟨"advanced/with_lens_light/light/gaussians/lens_gaussians_sie__source.py",
    "phase_1__lens_bulge_disk_sie__source", "lens.bulge.centre", false,
    BindingForm.alignWithin⟩,
  ⟨"advanced/with_lens_light/light/gaussians/lens_gaussians_sie__source.py",
    "phase_1__lens_bulge_disk_sie__source", "lens.bulge.axis_ratio", false,
    BindingForm.alignWithin⟩,
  ⟨"advanced/with_lens_light/light/gaussians/lens_gaussians_sie__source.py",
    "phase_1__lens_bulge_disk_sie__source", "lens.bulge.phi", false,
    BindingForm.alignWithin⟩,
  ⟨"advanced/with_lens_light/light/gaussians/lens_gaussians_sie__source.py",
    "phase_1__lens_bulge_disk_sie__source", "source", true,
    BindingForm.resultInstance⟩,
  ⟨"advanced/with_lens_light/light/gaussians/lens_gaussians_sie__source.py",
    "phase_1__lens_bulge_disk_sie__source", "hyper_image_sky", true,
    BindingForm.resultInstance⟩,
  ⟨"advanced/with_lens_light/light/gaussians/lens_gaussians_sie__source.py",
    "phase_1__lens_bulge_disk_sie__source", "hyper_background_noise", true,
    BindingForm.resultInstance⟩ ]

/-- Whether a binding has one of the claim's three forms: fixed to a result's
best-fit value, an adjustable distribution from a result (optionally
re-centred with `model_absolute`), or left untouched (an untouched parameter
produces no binding, so a performed binding must be one of the first two). -/
def threeForms (b : Binding) : Bool :=
  b.form = BindingForm.resultInstance || b.form = BindingForm.resultModel ||
    b.form = BindingForm.resultModelAbsolute

/-- Whether a binding has one of the additional forms actually present in
the pipeline files beyond the claim's three. -/
def extraForms (b : Binding) : Bool :=
  b.form = BindingForm.freshPrior || b.form = BindingForm.setupValue ||
    b.form = BindingForm.alignWithin || b.form = BindingForm.removed

/-- C5 counterexample: the `pass_priors` body of `phase_1_lens_sersic` in
`src/pipelines/simple/lens_sersic_sie_shear_source_sersic.py` (lines 77-80)
assigns `self.lens_galaxies.lens.light.centre_0 =
mm.GaussianPrior(mean=0.0, sigma=0.1)` — a manually specified fresh prior,
which is none of the claim's three forms.  So not every binding has one of
exactly three forms. -/
theorem binding_outside_three_forms :
    (Binding.mk "simple/lens_sersic_sie_shear_source_sersic.py"
        "phase_1_lens_sersic" "lens.light.centre_0" false BindingForm.freshPrior)
      ∈ priorPassingBindings ∧
    threeForms (Binding.mk "simple/lens_sersic_sie_shear_source_sersic.py"
        "phase_1_lens_sersic" "lens.light.centre_0" false BindingForm.freshPrior)
      = false ∧
    priorPassingBindings.all threeForms = false := by decide

/-- C5 (amended): every parameter binding performed during prior
configuration either reads a completed phase's result and has one of the
claim's three forms (fixed `instance`/`constant` value, adjustable
`model`/`variable` distribution, or `model_absolute` re-centred
distribution), or does not read a result and is one of: a manually specified
fresh prior, a pipeline-setup value, an alignment to another parameter of the
same phase's model, or a removal of the component; parameters not assigned at
all keep their default priors. -/
theorem bindings_fixed_or_model_or_nonresult :
    priorPassingBindings.all
      (fun b => (b.readsResult && threeForms b) || (!b.readsResult && extraForms b))
      = true := by decide

/-- Embedding of the `phase_folders` update of `make_pipeline` in
`src/pipelines/simple/lens_sie__source_inversion.py` (lines 79-80):
`phase_folders.append(pipeline_name)` then
`phase_folders.append(pipeline_tag)`, with the in-place mutation of the
caller's list modelled by explicit state passing. -/
def sie_source_inversion_phase_folders (phase_folders : List String)
    (pipeline_name pipeline_tag : String) : List String :=
  (phase_folders ++ [pipeline_name]) ++ [pipeline_tag]

/-- Embedding of the `phase_folders` update of `make_pipeline` in
`src/pipelines/advanced/with_lens_light/source/parametric/lens_bulge_disk_sie__source_sersic.py`
(lines 74-76): appends the pipeline name, `setup.general.tag` and
`setup.source.tag_no_inversion`. -/
def bulge_disk_phase_folders (phase_folders : List String)
    (pipeline_name general_tag source_tag_no_inversion : String) : List String :=
  ((phase_folders ++ [pipeline_name]) ++ [general_tag]) ++ [source_tag_no_inversion]

/-- Embedding of the `phase_folders` update of `make_pipeline` in
`src/pipelines/advanced/with_lens_light/light/gaussians/lens_gaussians_sie__source.py`
(lines 56-61): appends the pipeline name, `setup.general.tag`,
`setup.source.tag` and `setup.light.tag`. -/
def gaussians_phase_folders (phase_folders : List String)
    (pipeline_name general_tag source_tag light_tag : String) : List String :=
  (((phase_folders ++ [pipeline_name]) ++ [general_tag]) ++ [source_tag])
    ++ [light_tag]

/-- C7: each `make_pipeline` that edits `phase_folders` itself extends the
caller-supplied list with the pipeline name followed by its settings tag(s);
the original elements are neither removed nor reordered (they remain the
initial segment of the resulting list). -/
theorem phase_folders_extended_in_order (folders : List String)
    (nm t1 t2 t3 : String) :
    sie_source_inversion_phase_folders folders nm t1 = folders ++ [nm, t1] ∧
    (sie_source_inversion_phase_folders folders nm t1).take folders.length
      = folders ∧
    bulge_disk_phase_folders folders nm t1 t2 = folders ++ [nm, t1, t2] ∧
    (bulge_disk_phase_folders folders nm t1 t2).take folders.length = folders ∧
    gaussians_phase_folders folders nm t1 t2 t3 = folders ++ [nm, t1, t2, t3] ∧
    (gaussians_phase_folders folders nm t1 t2 t3).take folders.length
      = folders := by
  have h1 : sie_source_inversion_phase_folders folders nm t1
      = folders ++ [nm, t1] := by
    simp [sie_source_inversion_phase_folders]
  have h2 : bulge_disk_phase_folders folders nm t1 t2
      = folders ++ [nm, t1, t2] := by
    simp [bulge_disk_phase_folders]
  have h3 : gaussians_phase_folders folders nm t1 t2 t3
      = folders ++ [nm, t1, t2, t3] := by
    simp [gaussians_phase_folders]
  refine ⟨h1, ?_, h2, ?_, h3, ?_⟩
  · rw [h1]
    exact List.take_left folders _
  · rw [h2]
    exact List.take_left folders _
  · rw [h3]
    exact List.take_left folders _

/-- Python-level error raised by calling a method on `None`. -/
inductive PyError where
  | noneHasNoAttributeAppend
  deriving DecidableEq, Repr

/-- Embedding of the control flow of `make_pipeline` in
`src/pipelines/simple/lens_sie__source_inversion.py` (lines 45-224) that
belongs to this repository: with the default `phase_folders=None` the call
`phase_folders.append(pipeline_name)` raises
`AttributeError: 'NoneType' object has no attribute 'append'` before any
phase is constructed; with a list supplied, the list is extended with the
pipeline name and tag and the three phases are constructed and returned. -/
def make_pipeline_sie_source_inversion (phase_folders : Option (List String))
    (pipeline_tag : String) : Except PyError (List String × PipelineSpec) :=
  match phase_folders with
  | none => Except.error PyError.noneHasNoAttributeAppend
  | some folders =>
    Except.ok
      (sie_source_inversion_phase_folders folders
        "pipeline__sie__source_inversion" pipeline_tag,
      sieSourceInversion)

/-- C9: `make_pipeline` with the default `phase_folders=None` fails with an
uncaught `AttributeError` before any phase is constructed; it completes
exactly when a list is supplied, and then mutates that list in place
(extending it with the pipeline name and tag). -/
theorem make_pipeline_requires_folder_list :
    (∀ t, make_pipeline_sie_source_inversion none t
      = Except.error PyError.noneHasNoAttributeAppend) ∧
    (∀ l t, make_pipeline_sie_source_inversion (some l) t
      = Except.ok (l ++ ["pipeline__sie__source_inversion", t],
          sieSourceInversion)) ∧
    (∀ o t, (∃ r, make_pipeline_sie_source_inversion o t = Except.ok r) ↔
      o.isSome = true) := by
  refine ⟨fun t => rfl, fun l t => ?_, fun o t => ?_⟩
  · simp [make_pipeline_sie_source_inversion, sie_source_inversion_phase_folders]
  · cases o with
    | none =>
      constructor
      · rintro ⟨r, hr⟩
        cases hr
      · intro h
        simp at h
    | some l =>
      simp only [Option.isSome_some]
      exact iff_of_true ⟨_, rfl⟩ trivial

/-- Sequential execution of a list of fallible calls with no handler: runs
each call in order and stops at the first failure. -/
def seqCalls {E : Type} : List (Except E Unit) → Except E Unit
  | [] => Except.ok ()
  | Except.error e :: _ => Except.error e
  | Except.ok _ :: rest => seqCalls rest

lemma seqCalls_ok {E : Type} :
    ∀ (l : List (Except E Unit)), seqCalls l = Except.ok () →
      ∀ c ∈ l, c = Except.ok () := by
  intro l
  induction l with
  | nil => intro _ c hc; cases hc
  | cons a rest ih =>
    intro h c hc
    cases ha : a with
    | error e =>
      rw [ha] at h
      simp only [seqCalls] at h
      cases h
    | ok u =>
      rw [ha] at h
      simp only [seqCalls] at h
      rcases List.mem_cons.mp hc with rfl | hmem
      · cases u; exact ha
      · exact ih h c hmem

lemma seqCalls_error {E : Type} (e : E) :
    ∀ (pre post : List (Except E Unit)), (∀ c ∈ pre, c = Except.ok ()) →
      seqCalls (pre ++ Except.error e :: post) = Except.error e := by
  intro pre
  induction pre with
  | nil => intro post _; rfl
  | cons a rest ih =>
    intro post hok
    have ha : a = Except.ok () := hok a (List.mem_cons_self a rest)
    rw [List.cons_append, ha]
    simp only [seqCalls]
    exact ih post fun c hc => hok c (List.mem_cons_of_mem a hc)

/-- The external calls made, in source order, by
`src/runners/hyper/runner_hyper_galaxies_no_lens_light.py`: the config
assignment, the two output-path constructions, `load_ccd_data_from_fits`,
`Mask.circular`, `plot_ccd_subplot`, the three `make_pipeline` calls and the
final `pipeline.run`.  Each field records the call's success or failure;
the data threaded between calls is elided, the error flow is preserved. -/
structure RunnerCalls (E : Type) where
  config_instance : Except E Unit
  make_data_path : Except E Unit
  make_dataset_path : Except E Unit
  load_ccd_data_from_fits : Except E Unit
  mask_circular : Except E Unit
  plot_ccd_subplot : Except E Unit
  make_pipeline_initialize : Except E Unit
  make_pipeline_inversion : Except E Unit
  make_pipeline_power_law : Except E Unit
  pipeline_run : Except E Unit

/-- Embedding of the straight-line statement sequence of
`src/runners/hyper/runner_hyper_galaxies_no_lens_light.py`: each statement's
external call is executed in order, and there is no handler anywhere, so the
script completes only if every call completes. -/
def runner_hyper_galaxies_no_lens_light {E : Type} (o : RunnerCalls E) :
    Except E Unit := do
  o.config_instance
  o.make_data_path
  o.make_dataset_path
  o.load_ccd_data_from_fits
  o.mask_circular
  o.plot_ccd_subplot
  o.make_pipeline_initialize
  o.make_pipeline_inversion
  o.make_pipeline_power_law
  o.pipeline_run

/-- The runner's external calls as a list, in source order. -/
def runnerCallList {E : Type} (o : RunnerCalls E) : List (Except E Unit) :=
  [o.config_instance, o.make_data_path, o.make_dataset_path,
    o.load_ccd_data_from_fits, o.mask_circular, o.plot_ccd_subplot,
    o.make_pipeline_initialize, o.make_pipeline_inversion,
    o.make_pipeline_power_law, o.pipeline_run]

lemma runner_eq_seqCalls {E : Type} (o : RunnerCalls E) :
    runner_hyper_galaxies_no_lens_light o = seqCalls (runnerCallList o) := by
  unfold runner_hyper_galaxies_no_lens_light runnerCallList
  cases o.config_instance <;> cases o.make_data_path <;>
    cases o.make_dataset_path <;> cases o.load_ccd_data_from_fits <;>
    cases o.mask_circular <;> cases o.plot_ccd_subplot <;>
    cases o.make_pipeline_initialize <;> cases o.make_pipeline_inversion <;>
    cases o.make_pipeline_power_law <;> cases o.pipeline_run <;> rfl

/-- The external calls made, in source order, by
`src/aggregator/scripts/tutorial_2_lens_models.py`: the config assignment,
the aggregator construction, the filtered-output query, the model-instance
extractions, the tracer constructions and plots, the error-instance
extractions, the errorbar plot, and the sampling loop. -/
structure AggregatorCalls (E : Type) where
  config_instance : Except E Unit
  aggregator_ctor : Except E Unit
  filter_outputs : Except E Unit
  most_likely_instances : Except E Unit
  tracers_from_galaxies : Except E Unit
  subplot_tracer : Except E Unit
  most_probable_instances : Except E Unit
  upper_error_instances : Except E Unit
  lower_error_instances : Except E Unit
  errorbar_plot : Except E Unit
  sample_loop : Except E Unit

/-- Embedding of the straight-line statement sequence of
`src/aggregator/scripts/tutorial_2_lens_models.py`: every external call is
executed in order with no handler. -/
def tutorial_2_lens_models {E : Type} (a : AggregatorCalls E) :
    Except E Unit := do
  a.config_instance
  a.aggregator_ctor
  a.filter_outputs
  a.most_likely_instances
  a.tracers_from_galaxies
  a.subplot_tracer
  a.most_probable_instances
  a.upper_error_instances
  a.lower_error_instances
  a.errorbar_plot
  a.sample_loop

/-- The aggregator script's external calls as a list, in source order. -/
def aggregatorCallList {E : Type} (a : AggregatorCalls E) :
    List (Except E Unit) :=
  [a.config_instance, a.aggregator_ctor, a.filter_outputs,
    a.most_likely_instances, a.tracers_from_galaxies, a.subplot_tracer,
    a.most_probable_instances, a.upper_error_instances,
    a.lower_error_instances, a.errorbar_plot, a.sample_loop]

lemma tutorial_2_eq_seqCalls {E : Type} (a : AggregatorCalls E) :
    tutorial_2_lens_models a = seqCalls (aggregatorCallList a) := by
  unfold tutorial_2_lens_models aggregatorCallList
  cases a.config_instance <;> cases a.aggregator_ctor <;>
    cases a.filter_outputs <;> cases a.most_likely_instances <;>
    cases a.tracers_from_galaxies <;> cases a.subplot_tracer <;>
    cases a.most_probable_instances <;> cases a.upper_error_instances <;>
    cases a.lower_error_instances <;> cases a.errorbar_plot <;>
    cases a.sample_loop <;> rfl

/-- C8: the runner and aggregator scripts perform no retry, recovery or
validation: the script completes only if every external call completes (no
failure is checked or swallowed), and a failure of an external call — here
`load_ccd_data_from_fits`, after the preceding calls succeed — propagates as
the script's own uncaught failure. -/
theorem scripts_propagate_external_failures {E : Type} (o : RunnerCalls E)
    (a : AggregatorCalls E) (e : E) :
    (runner_hyper_galaxies_no_lens_light o = Except.ok () →
      ∀ c ∈ runnerCallList o, c = Except.ok ()) ∧
    (tutorial_2_lens_models a = Except.ok () →
      ∀ c ∈ aggregatorCallList a, c = Except.ok ()) ∧
    (o.config_instance = Except.ok () → o.make_data_path = Except.ok () →
      o.make_dataset_path = Except.ok () →
      o.load_ccd_data_from_fits = Except.error e →
      runner_hyper_galaxies_no_lens_light o = Except.error e) := by
  refine ⟨?_, ?_, ?_⟩
  · intro h
    rw [runner_eq_seqCalls] at h
    exact seqCalls_ok (runnerCallList o) h
  · intro h
    rw [tutorial_2_eq_seqCalls] at h
    exact seqCalls_ok (aggregatorCallList a) h
  · intro h1 h2 h3 h4
    rw [runner_eq_seqCalls, runnerCallList, h1, h2, h3, h4]
    refine seqCalls_error e [Except.ok (), Except.ok (), Except.ok ()] _ ?_
    intro c hc
    simp only [List.mem_cons, List.not_mem_nil, or_false] at hc
    rcases hc with rfl | rfl | rfl <;> rfl

/-- A runner oracle under which every external call succeeds. -/
def runnerAllOk : RunnerCalls Nat :=
  ⟨Except.ok (), Except.ok (), Except.ok (), Except.ok (), Except.ok (),
    Except.ok (), Except.ok (), Except.ok (), Except.ok (), Except.ok ()⟩

/-- A runner oracle under which `load_ccd_data_from_fits` fails with error 7
and the calls before it succeed. -/
def runnerLoadFails : RunnerCalls Nat :=
  ⟨Except.ok (), Except.ok (), Except.ok (), Except.error 7, Except.ok (),
    Except.ok (), Except.ok (), Except.ok (), Except.ok (), Except.ok ()⟩

/-- An aggregator oracle under which every external call succeeds. -/
def aggregatorAllOk : AggregatorCalls Nat :=
  ⟨Except.ok (), Except.ok (), Except.ok (), Except.ok (), Except.ok (),
    Except.ok (), Except.ok (), Except.ok (), Except.ok (), Except.ok (),
    Except.ok ()⟩

/-- Witness for C8 at concrete oracles. -/
theorem scripts_propagate_external_failures_witness :
    runner_hyper_galaxies_no_lens_light runnerLoadFails = Except.error 7 ∧
    (∀ c ∈ runnerCallList runnerAllOk, c = Except.ok ()) ∧
    (∀ c ∈ aggregatorCallList aggregatorAllOk, c = Except.ok ()) :=
  ⟨(scripts_propagate_external_failures runnerLoadFails aggregatorAllOk 7).2.2
      rfl rfl rfl rfl,
    (scripts_propagate_external_failures runnerAllOk aggregatorAllOk 7).1 rfl,
    (scripts_propagate_external_failures runnerAllOk aggregatorAllOk 7).2.1 rfl⟩

end AutolensWorkspace
